import Mathlib

/-!
Verification development for the steem-rpc-scanner repository.

The Python sources are shallowly embedded as Lean definitions:

* `rpcscanner/RPCScanner.py` — the `NodeStatus` dataclass and its derived
  properties, plus `host_sorter` / `prepare_table` (sorting of the node table);
* `health.py` — the `score_node` scoring function;
* `rpcscanner/rpc.py` — the retry wrapper `NodePlug._try_node`, the identify
  loop `NodePlug._ident_jussi` and the response classifier
  `NodePlug._ident_response`.

Modelling conventions:

* Python `datetime` values are modelled as integer UTC epoch seconds and
  `timedelta` values as integer second counts (all thresholds compared against
  in the sources are whole seconds).
* Python dicts whose insertion order matters are modelled as association lists.
* Fallible Python code (raised exceptions) is modelled with `Except`/`Option`.
* Configuration read from `rpcscanner/settings.py` is fixed at its documented
  defaults where a numeric constant is needed (`MAX_SCORE = 50`,
  `GOOD_RETURN_CODE = 0`, `BAD_RETURN_CODE = 8`) and kept as an explicit
  function parameter where a claim quantifies over it (`MAX_TRIES`,
  `settings.plugins`).
-/

/-- settings.py: `MAX_SCORE = env_int('MAX_SCORE', 50)` (default value). -/
def MAX_SCORE : Int := 50

/-- settings.py: `GOOD_RETURN_CODE = env_int('GOOD_RETURN_CODE', 0)`. -/
def GOOD_RETURN_CODE : Int := 0

/-- settings.py: `BAD_RETURN_CODE = env_int('BAD_RETURN_CODE', 8)`. -/
def BAD_RETURN_CODE : Int := 8

/-- RPCScanner.py `NodeStatus.current_block`: initialised to the string
`'error'` by `scan_nodes`, later overwritten with
`props.get('head_block_number', 'Unknown')`, so its value is the string
`'error'`, the string `'Unknown'`, or an integer. -/
inductive BlockVal where
  | errorStr
  | unknownStr
  | value (n : Int)
deriving Repr, DecidableEq

/-- RPCScanner.py lines 24-152: the `NodeStatus` dataclass.  `raw` is modelled
by its key list (only `len(self.raw)` and emptiness are ever read), `timing`
and `tries` as association lists mirroring dict insertion order, datetimes as
epoch seconds. -/
structure NodeStatus where
  host : String
  raw : List String
  timing : List (String × Rat)
  tries : List (String × Nat)
  plugins : List String := []
  broken_plugins : List String := []
  err_reason : Option String := none
  srvtype : String := "Unknown"
  current_block : BlockVal := .errorStr
  block_time : Option Int := none
  version : Option String := none
  network : Option String := none
  scanned_at : Option Int := none
deriving Repr, DecidableEq

/-- `NodeStatus.status`: `len(self.raw)` (RPCScanner.py lines 59-62). -/
def NodeStatus.status (n : NodeStatus) : Nat := n.raw.length

/-- `NodeStatus.total_tries` (RPCScanner.py lines 69-75): sums every recorded
attempt count. -/
def NodeStatus.total_tries (n : NodeStatus) : Nat :=
  n.tries.foldl (fun acc kv => acc + kv.2) 0

/-- `NodeStatus.total_retries` (RPCScanner.py lines 77-84): sums the FULL
attempt count of every entry whose attempt count exceeds 1 (note: it adds
`tries`, not `tries - 1`). -/
def NodeStatus.total_retries (n : NodeStatus) : Nat :=
  n.tries.foldl (fun acc kv => if kv.2 > 1 then acc + kv.2 else acc) 0

/-- `NodeStatus.plugin_counts` (RPCScanner.py lines 96-99):
`(len(self.plugins), len(self.plugins) + len(self.broken_plugins))`. -/
def NodeStatus.plugin_counts (n : NodeStatus) : Nat × Nat :=
  (n.plugins.length, n.plugins.length + n.broken_plugins.length)

/-- `NodeStatus.time_behind` (RPCScanner.py lines 101-107): `None` when
`block_time` is empty, otherwise `scanned_at - block_time` (falling back to
`datetime.utcnow()`, passed here as `now`, when `scanned_at` is unset). -/
def NodeStatus.time_behind (now : Int) (n : NodeStatus) : Option Int :=
  match n.block_time with
  | none => none
  | some bt => some ((match n.scanned_at with | some s => s | none => now) - bt)

/-- Format a (non-negative) rational with two decimal places, modelling
Python's `'{:.2f}'.format(...)`.  Python rounds via IEEE-754 round-half-even
on the float value; this model rounds the exact rational half-up — the two
agree except on exact-half edge cases, which no theorem below depends on. -/
def format2dp (q : Rat) : String :=
  let scaled : Int := round (q * 100)
  let ip := scaled / 100
  let fp := (scaled % 100).natAbs
  toString ip ++ "." ++ (if fp < 10 then "0" ++ toString fp else toString fp)

/-- `NodeStatus.avg_tries` (RPCScanner.py lines 86-89):
`'{:.2f}'.format(self.total_tries / len(self.tries))` — the division has no
guard, so an empty `tries` dict raises `ZeroDivisionError`, modelled as
`.error ()`. -/
def NodeStatus.avg_tries (n : NodeStatus) : Except Unit String :=
  if n.tries.length = 0 then .error ()
  else .ok (format2dp ((n.total_tries : Rat) / (n.tries.length : Rat)))

/-- `NodeStatus.avg_retries` (RPCScanner.py lines 91-94): same unguarded
division as `avg_tries`, with `total_retries` as the numerator. -/
def NodeStatus.avg_retries (n : NodeStatus) : Except Unit String :=
  if n.tries.length = 0 then .error ()
  else .ok (format2dp ((n.total_retries : Rat) / (n.tries.length : Rat)))

/-- health.py lines 386-391: the staleness penalty ladder inside
`score_node`.  The literals are the values of `int(MAX_SCORE * frac)` at the
default `MAX_SCORE = 50`: 0.8→40, 0.5→25, 0.3→15, 0.15→7, 0.10→5, 0.05→2. -/
def timePenaltySub (t : Int) (score : Int) : Int :=
  if t > 86400 then score - 40
  else if t > 3600 then score - 25
  else if t > 600 then score - 15
  else if t > 300 then score - 7
  else if t > 60 then score - 5
  else if t > 30 then score - 2
  else score

/-- health.py lines 395-398: the floor-rescue.  The three conditionals are
sequential `if` statements (not `elif`), so a later assignment overwrites an
earlier one: `int(MAX_SCORE*0.8)=40 → int(MAX_SCORE*0.2)=10`,
`int(MAX_SCORE*0.5)=25 → int(MAX_SCORE*0.1)=5`,
`int(MAX_SCORE*0.2)=10 → int(MAX_SCORE*0.05)=2`. -/
def stalenessRescue (preScore score : Int) : Int :=
  let score := if preScore > 40 then 10 else score
  let score := if preScore > 25 then 5 else score
  let score := if preScore > 10 then 2 else score
  score

/-- health.py lines 384-398: the whole `if n.time_behind:` block.  A `None`
`time_behind` skips the block; so does a zero timedelta (falsy in Python).
The rescue fires when the post-penalty score drops below
`int(MAX_SCORE * 0.1) = 5`. -/
def timeAdjust : Option Int → Int → Int
  | none, score => score
  | some t, score =>
    if t = 0 then score
    else
      let preScore := score
      let score1 := timePenaltySub t score
      if score1 < 5 then stalenessRescue preScore score1 else score1

/-- health.py lines 345-405 (`score_node`), split over the values it reads
from the `NodeStatus` argument: `status = len(raw)`, `total_retries`,
`plugin_counts` and `time_behind`.  `plugins` is the `settings.plugins`
global. -/
def score_core (plugins : Bool) (min_score : Int) (status : Nat)
    (retries : Nat) (plugTried plugTotal : Nat) (tb : Option Int) :
    Int × Int × String :=
  if status ≤ 0 then (0, 1, "DEAD")
  else
    let score : Int :=
      if status = 1 then MAX_SCORE - 10
      else if status = 2 then MAX_SCORE - 5
      else MAX_SCORE
    let score := if (retries : Int) > 0 then score - (retries : Int) * 2 else score
    let score :=
      if plugins ∧ plugTried < plugTotal then
        score - ((plugTotal : Int) - (plugTried : Int)) * 4
      else score
    let score := timeAdjust tb score
    let score := if score < 0 then 0 else score
    let return_code := if score < min_score then BAD_RETURN_CODE else GOOD_RETURN_CODE
    let status_name := if score < min_score then "BAD" else "GOOD"
    let status_name := if score ≥ MAX_SCORE then "PERFECT" else status_name
    (score, return_code, status_name)

/-- health.py `score_node(min_score, n)`: returns
`(score, return_code, status_name)`.  `now` stands for `datetime.utcnow()`
(used only when `scanned_at` is unset, see `NodeStatus.time_behind`). -/
def score_node (plugins : Bool) (now : Int) (min_score : Int) (n : NodeStatus) :
    Int × Int × String :=
  score_core plugins min_score n.status n.total_retries
    n.plugin_counts.1 n.plugin_counts.2 (n.time_behind now)

/-- The score accumulated by health.py lines 364-381 before the staleness
block: the stage-tier base minus the retry and plugin deductions ("pre-penalty
score", the value `pre_score` captures at line 385).  For a dead node
(`status == 0`) `score_node` returns before this point; base 0 is used so the
definition is total. -/
def pre_penalty_score (plugins : Bool) (n : NodeStatus) : Int :=
  let status := n.status
  let base : Int :=
    if status ≤ 0 then 0
    else if status = 1 then MAX_SCORE - 10
    else if status = 2 then MAX_SCORE - 5
    else MAX_SCORE
  let s := if (n.total_retries : Int) > 0 then base - (n.total_retries : Int) * 2 else base
  if plugins ∧ n.plugin_counts.1 < n.plugin_counts.2 then
    s - ((n.plugin_counts.2 : Int) - (n.plugin_counts.1 : Int)) * 4
  else s

/-- Outcome of one underlying attempt as seen by the retry loops in rpc.py:
a successful call returning a payload, a generic retryable exception, or the
HTTP 426 case (`'HTTPError' in str(type(e)) and '426 Client Error' in str(e)`),
which both loops convert into a terminal `ServerDead`. -/
inductive AttemptResult (α : Type) where
  | success (v : α)
  | failure
  | upgradeRequired
deriving Repr, DecidableEq

/-- The two `ServerDead` exits of the retry loops: `unresponsive a` models
`ServerDead(f'{host} did not respond properly after {tries} tries')` with
`a` the attempt count already made, and `wsOnly a` models
`ServerDead(f'Server {host} only supports websockets')` raised after `a`
attempts. -/
inductive DeadErr where
  | unresponsive (attempts : Nat)
  | wsOnly (attempts : Nat)
deriving Repr, DecidableEq

/-- rpc.py lines 151-178, `NodePlug._try_node(host, method, params, tries=0)`:
if `tries >= MAX_TRIES` raise `ServerDead` (unresponsive); otherwise increment
`tries`, run one attempt (`att tries` is the outcome of the 0-based attempt
number `tries`); on success return `(result, tries)` (the `time_taken` field
of `RPCBenchResult` is wall-clock time and is not modelled); on a 426
transport error raise `ServerDead` ("only supports websockets") immediately;
on any other exception sleep `RETRY_DELAY` and recurse with the incremented
`tries`.  `maxTries` is the configurable `settings.MAX_TRIES` (default 3). -/
def tryNodeGo (maxTries : Nat) (att : Nat → AttemptResult α) (tries : Nat) :
    Except DeadErr (α × Nat) :=
  if maxTries ≤ tries then .error (.unresponsive tries)
  else
    match att tries with
    | .success v => .ok (v, tries + 1)
    | .upgradeRequired => .error (.wsOnly (tries + 1))
    | .failure => tryNodeGo maxTries att (tries + 1)
termination_by maxTries - tries
decreasing_by omega

/-- rpc.py `NodePlug.try_node` / `rpc(...)`: both simply delegate to
`_try_node` starting at `tries = 0` and re-raise `ServerDead`. -/
def tryNode (maxTries : Nat) (att : Nat → AttemptResult α) :
    Except DeadErr (α × Nat) :=
  tryNodeGo maxTries att 0

/-- rpc.py lines 208-240, `NodePlug._ident_jussi(host, tries=0)`: the same
bounded-retry skeleton as `_try_node`, where one attempt is the plain GET plus
`_ident_response` classification (its result may be `None`, hence the
`Option String` payload).  A 426 HTTP error is re-raised by the inner handler
(line 224) and converted by the outer handler (lines 236-237) into the
terminal websockets-only `ServerDead`; any other exception sleeps and
retries. -/
def identJussiGo (maxTries : Nat) (att : Nat → AttemptResult (Option String))
    (tries : Nat) : Except DeadErr (Option String × Nat) :=
  if maxTries ≤ tries then .error (.unresponsive tries)
  else
    match att tries with
    | .success v => .ok (v, tries + 1)
    | .upgradeRequired => .error (.wsOnly (tries + 1))
    | .failure => identJussiGo maxTries att (tries + 1)
termination_by maxTries - tries
decreasing_by omega

/-- rpc.py `NodePlug.ident_jussi` / `identify_node`: delegate to
`_ident_jussi` starting at `tries = 0`. -/
def identJussi (maxTries : Nat) (att : Nat → AttemptResult (Option String)) :
    Except DeadErr (Option String × Nat) :=
  identJussiGo maxTries att 0

/-- Whether `needle` occurs at the start of `hay` (character-exact). -/
def listBeginsWith : List Char → List Char → Bool
  | [], _ => true
  | _ :: _, [] => false
  | a :: as, b :: bs => a == b && listBeginsWith as bs

/-- Whether `needle` occurs anywhere inside `hay`; models the Python `in`
operator on strings (the empty needle is contained in everything). -/
def listHasSub (needle : List Char) : List Char → Bool
  | [] => listBeginsWith needle []
  | c :: rest => listBeginsWith needle (c :: rest) || listHasSub needle rest

/-- `needle in hay` for strings. -/
def containsSub (needle hay : String) : Bool := listHasSub needle.data hay.data

/-- ASCII lower-casing of one character. -/
def charLower (c : Char) : Char :=
  if 'A' ≤ c ∧ c ≤ 'Z' then Char.ofNat (c.toNat + 32) else c

/-- Python's `str.lower()` (the values probed in the sources are ASCII). -/
def strLower (s : String) : String := String.mk (s.data.map charLower)

mutual
/-- A decoded JSON value as handled by rpc.py (`res.json()` /
`json.loads`).  Numbers are modelled as integers only: none of the response
bodies examined by the theorems below carry fractional numbers. -/
inductive JsonVal where
  | str (s : String)
  | num (n : Int)
  | bool (b : Bool)
  | null
  | obj (fields : JsonFields)
  | arr (elems : JsonElems)

/-- The key/value entries of a JSON object, in order. -/
inductive JsonFields where
  | nil
  | cons (key : String) (val : JsonVal) (rest : JsonFields)

/-- The entries of a JSON array, in order. -/
inductive JsonElems where
  | nil
  | cons (val : JsonVal) (rest : JsonElems)
end

/-- `key in d` for a JSON object (Python dict key membership). -/
def fieldsHasKey (k : String) : JsonFields → Bool
  | .nil => false
  | .cons key _ rest => key == k || fieldsHasKey k rest

/-- `d[key]` lookup; with duplicate keys the LAST entry wins, matching the
dict produced by Python's `json.loads`. -/
def fieldsGet (k : String) : JsonFields → Option JsonVal
  | .nil => none
  | .cons key v rest =>
    match fieldsGet k rest with
    | some w => some w
    | none => if key == k then some v else none

/-- `j == s` where `j` is a decoded JSON value and `s` a string: Python
equality between a string and a non-string is `False`, never an error. -/
def isStrEq : JsonVal → String → Bool
  | .str s, t => s == t
  | _, _ => false

/-- `s in l` for a JSON array (Python list membership, testing each element
for equality with the string). -/
def elemsHasStr (k : String) : JsonElems → Bool
  | .nil => false
  | .cons v rest => isStrEq v k || elemsHasStr k rest

/-- The Python `in` operator applied to a decoded JSON value: key membership
for objects, substring for strings, element membership for arrays; any other
operand raises `TypeError` (modelled `.error ()`). -/
def pyIn (needle : String) : JsonVal → Except Unit Bool
  | .obj f => .ok (fieldsHasKey needle f)
  | .str s => .ok (containsSub needle s)
  | .arr es => .ok (elemsHasStr needle es)
  | _ => .error ()

/-- `v[key]` on a decoded JSON value: object lookup (`KeyError` when the key
is missing) or `TypeError` on any non-object, both modelled `.error ()`. -/
def pyIndex (v : JsonVal) (key : String) : Except Unit JsonVal :=
  match v with
  | .obj f =>
    match fieldsGet key f with
    | some w => .ok w
    | none => .error ()
  | _ => .error ()

/-- One character of a JSON string, escaped the way Python's `json.dumps`
escapes it (the control characters other than newline/tab/CR that would need
a numeric escape do not occur in any value the theorems touch). -/
def escapeJsonChar (c : Char) : List Char :=
  if c = '"' then ['\\', '"']
  else if c = '\\' then ['\\', '\\']
  else if c = '\n' then ['\\', 'n']
  else if c = '\t' then ['\\', 't']
  else if c = '\r' then ['\\', 'r']
  else [c]

/-- JSON string-body escaping for `jsonDumps`. -/
def escapeJson (s : String) : String :=
  String.mk (s.data.foldr (fun c acc => escapeJsonChar c ++ acc) [])

mutual
/-- Python's `json.dumps` with its default separators `', '` and `': '`. -/
def jsonDumps : JsonVal → String
  | .str s => "\"" ++ escapeJson s ++ "\""
  | .num n => toString n
  | .bool b => if b then "true" else "false"
  | .null => "null"
  | .obj f =>
    String.singleton (Char.ofNat 123) ++ dumpFields f true ++ String.singleton (Char.ofNat 125)
  | .arr e => "[" ++ dumpElems e true ++ "]"

/-- Object entries of `jsonDumps` (`first` suppresses the leading comma). -/
def dumpFields : JsonFields → Bool → String
  | .nil, _ => ""
  | .cons k v rest, first =>
    (if first then "" else ", ") ++ "\"" ++ escapeJson k ++ "\"" ++ ": "
      ++ jsonDumps v ++ dumpFields rest false

/-- Array entries of `jsonDumps`. -/
def dumpElems : JsonElems → Bool → String
  | .nil, _ => ""
  | .cons v rest, first =>
    (if first then "" else ", ") ++ jsonDumps v ++ dumpElems rest false
end

/-- Skip JSON whitespace. -/
def skipWs : List Char → List Char
  | [] => []
  | c :: cs => if c = ' ' ∨ c = '\t' ∨ c = '\n' ∨ c = '\r' then skipWs cs else c :: cs

/-- Decode one escaped character of a JSON string literal (`\uXXXX` escapes
are not modelled; they occur in no input the theorems use). -/
def escChar (e : Char) : Option Char :=
  if e = '"' then some '"'
  else if e = '\\' then some '\\'
  else if e = '/' then some '/'
  else if e = 'n' then some '\n'
  else if e = 't' then some '\t'
  else if e = 'r' then some '\r'
  else if e = 'b' then some (Char.ofNat 8)
  else if e = 'f' then some (Char.ofNat 12)
  else none

/-- Parse the body of a JSON string literal after the opening quote, up to and
including the closing quote; returns the content and the remaining input. -/
def parseStrBody : List Char → Option (List Char × List Char)
  | [] => none
  | '\\' :: e :: cs =>
    match escChar e with
    | some c => (parseStrBody cs).map (fun p => (c :: p.1, p.2))
    | none => none
  | '"' :: cs => some ([], cs)
  | c :: cs => (parseStrBody cs).map (fun p => (c :: p.1, p.2))

/-- Split a leading run of decimal digits off the input. -/
def takeDigits : List Char → (List Char × List Char)
  | [] => ([], [])
  | c :: cs =>
    if c.isDigit then
      let p := takeDigits cs
      (c :: p.1, p.2)
    else ([], c :: cs)

/-- Numeric value of a digit run. -/
def digitsVal (ds : List Char) : Nat :=
  ds.foldl (fun a c => a * 10 + (c.toNat - 48)) 0

/-- Check that `expected` literally heads the input and drop it. -/
def expectLit : List Char → List Char → Option (List Char)
  | [], cs => some cs
  | e :: es, c :: cs => if e = c then expectLit es cs else none
  | _ :: _, [] => none

mutual
/-- Fuel-bounded parser for the JSON value grammar accepted by Python's
`json.loads`, restricted to integer numbers (a fractional or exponent part
makes the overall parse fail instead of producing a float). -/
def parseValue : Nat → List Char → Option (JsonVal × List Char)
  | 0, _ => none
  | fuel + 1, cs =>
    match skipWs cs with
    | [] => none
    | c :: rest =>
      if c = '"' then (parseStrBody rest).map (fun p => (.str (String.mk p.1), p.2))
      else if c = Char.ofNat 123 then
        (parseFields fuel rest).map (fun p => (.obj p.1, p.2))
      else if c = '[' then
        (parseElems fuel rest).map (fun p => (.arr p.1, p.2))
      else if c = 't' then (expectLit ['r', 'u', 'e'] rest).map (fun r => (.bool true, r))
      else if c = 'f' then (expectLit ['a', 'l', 's', 'e'] rest).map (fun r => (.bool false, r))
      else if c = 'n' then (expectLit ['u', 'l', 'l'] rest).map (fun r => (.null, r))
      else if c = '-' then
        match takeDigits rest with
        | ([], _) => none
        | (ds, r) => some (.num (-(digitsVal ds : Int)), r)
      else if c.isDigit then
        match takeDigits (c :: rest) with
        | ([], _) => none
        | (ds, r) => some (.num (digitsVal ds : Int), r)
      else none

/-- Parse the inside of a JSON object, the opening brace already consumed. -/
def parseFields : Nat → List Char → Option (JsonFields × List Char)
  | 0, _ => none
  | fuel + 1, cs =>
    match skipWs cs with
    | [] => none
    | c :: rest =>
      if c = Char.ofNat 125 then some (.nil, rest)
      else if c = '"' then
        match parseStrBody rest with
        | none => none
        | some (key, afterKey) =>
          match skipWs afterKey with
          | ':' :: afterColon =>
            match parseValue fuel afterColon with
            | none => none
            | some (v, afterVal) =>
              match skipWs afterVal with
              | ',' :: afterComma =>
                (parseFieldsMore fuel afterComma).map
                  (fun p => (.cons (String.mk key) v p.1, p.2))
              | c2 :: afterBrace =>
                if c2 = Char.ofNat 125 then some (.cons (String.mk key) v .nil, afterBrace)
                else none
              | [] => none
          | _ => none
      else none

/-- Parse the fields after a comma inside a JSON object (a closing brace is
not allowed here: Python rejects trailing commas). -/
def parseFieldsMore : Nat → List Char → Option (JsonFields × List Char)
  | 0, _ => none
  | fuel + 1, cs =>
    match skipWs cs with
    | '"' :: rest =>
      match parseStrBody rest with
      | none => none
      | some (key, afterKey) =>
        match skipWs afterKey with
        | ':' :: afterColon =>
          match parseValue fuel afterColon with
          | none => none
          | some (v, afterVal) =>
            match skipWs afterVal with
            | ',' :: afterComma =>
              (parseFieldsMore fuel afterComma).map
                (fun p => (.cons (String.mk key) v p.1, p.2))
            | c2 :: afterBrace =>
              if c2 = Char.ofNat 125 then some (.cons (String.mk key) v .nil, afterBrace)
              else none
            | [] => none
        | _ => none
    | _ => none

/-- Parse the inside of a JSON array, the opening bracket already consumed. -/
def parseElems : Nat → List Char → Option (JsonElems × List Char)
  | 0, _ => none
  | fuel + 1, cs =>
    match skipWs cs with
    | ']' :: rest => some (.nil, rest)
    | other =>
      match parseValue fuel other with
      | none => none
      | some (v, afterVal) =>
        match skipWs afterVal with
        | ',' :: afterComma =>
          (parseElemsMore fuel afterComma).map (fun p => (.cons v p.1, p.2))
        | ']' :: afterBracket => some (.cons v .nil, afterBracket)
        | _ => none

/-- Parse the elements after a comma inside a JSON array. -/
def parseElemsMore : Nat → List Char → Option (JsonElems × List Char)
  | 0, _ => none
  | fuel + 1, cs =>
    match parseValue fuel cs with
    | none => none
    | some (v, afterVal) =>
      match skipWs afterVal with
      | ',' :: afterComma =>
        (parseElemsMore fuel afterComma).map (fun p => (.cons v p.1, p.2))
      | ']' :: afterBracket => some (.cons v .nil, afterBracket)
      | _ => none
end

/-- Python's `json.loads`: parse a complete JSON document (whitespace-padded),
`none` on any `JSONDecodeError`. -/
def jsonLoads (s : String) : Option JsonVal :=
  match parseValue (s.length + 1) s.data with
  | some (v, rest) => if skipWs rest = [] then some v else none
  | none => none

/-- rpc.py lines 188-206, `NodePlug._ident_response(res)` with
`res : Union[str, dict]` (a dict is given by its fields).  For a string input
the body is decoded with `json.loads`, an undecodable body leaving `j = {}`;
for a dict input `res` is re-serialised with `json.dumps` for the substring
checks.  The checks run in source order: the specific
`End Of File:stringstream` error message, then the `jussi_num` key, then the
two lower-cased substring probes on the raw text; `.error ()` models an
uncaught `TypeError`/`KeyError` escaping the classifier. -/
def identResponse (res : String ⊕ JsonFields) : Except Unit (Option String) :=
  let j : JsonVal :=
    match res with
    | .inl s => match jsonLoads s with | some v => v | none => .obj .nil
    | .inr d => .obj d
  let resStr : String :=
    match res with
    | .inl s => s
    | .inr d => jsonDumps (.obj d)
  match pyIn "error" j with
  | .error e => .error e
  | .ok hasErr =>
    let eofCheck : Except Unit Bool :=
      if hasErr then
        match pyIndex j "error" with
        | .error e => .error e
        | .ok errv =>
          match pyIn "message" errv with
          | .error e => .error e
          | .ok hasMsg =>
            if hasMsg then
              match pyIndex errv "message" with
              | .error e => .error e
              | .ok msg => .ok (isStrEq msg "End Of File:stringstream")
            else .ok false
      else .ok false
    match eofCheck with
    | .error e => .error e
    | .ok eofErr =>
      if eofErr then .ok (some "appbase")
      else
        match pyIn "jussi_num" j with
        | .error e => .error e
        | .ok hasJussi =>
          if hasJussi then .ok (some "jussi")
          else if containsSub "end of file:stringstream" (strLower resStr) then .ok (some "appbase")
          else if containsSub "could not call api" (strLower resStr) then .ok (some "legacy")
          else .ok none

/-- Whether `s` ends with `suffixStr` (Python `str.endswith`). -/
def strEndsWith (s suffixStr : String) : Bool :=
  listBeginsWith suffixStr.data.reverse s.data.reverse

/-- A Python value as produced by `host_sorter` / read off a `NodeStatus`
attribute during sorting: string, int, bool, datetime (epoch seconds),
timedelta (seconds), Decimal/float (exact rational), `None`, or the string
repr of a container object (`vRepr`; the exact repr text differs from
CPython's but is only ever consumed through `str(...)`, and no theorem
depends on it). -/
inductive PyVal where
  | vStr (s : String)
  | vInt (n : Int)
  | vBool (b : Bool)
  | vDt (t : Int)
  | vTd (t : Int)
  | vDec (q : Rat)
  | vNone
  | vRepr (s : String)
deriving Repr, DecidableEq

/-- `str(content)` as used by `host_sorter`.  Datetimes/timedeltas render as
their second count here rather than CPython's ISO text: both contain neither
of the probed substrings (`'error'` / `'none'`), which is all `host_sorter`
looks at in `strcont` for those types. -/
def pyStr : PyVal → String
  | .vStr s => s
  | .vInt n => toString n
  | .vBool b => if b then "True" else "False"
  | .vDt t => toString t
  | .vTd t => toString t
  | .vDec q => toString q
  | .vNone => "None"
  | .vRepr s => s

/-- `privex.helpers.empty(content)` with default options (`zero=False`,
`itr=False`): only `None` and the empty string are empty. -/
def pyEmpty : PyVal → Bool
  | .vNone => true
  | .vStr s => s == ""
  | _ => false

/-- `privex.helpers.is_true(content)`: `True`, `'true'/'1'/'y'/'yes'`
(case-insensitive) and the integer 1 are truthy. -/
def is_true : PyVal → Bool
  | .vBool b => b
  | .vStr s => strLower s == "true" || strLower s == "1" || strLower s == "y" || strLower s == "yes"
  | .vInt n => n == 1
  | _ => false

/-- `Decimal(content)` in the sorter's Decimal branch: Decimals and ints pass
through; strings are parsed as (optionally signed) fixed-point decimals;
anything else raises. -/
def parseUnsignedDec (l : List Char) : Option Rat :=
  match takeDigits l with
  | ([], _) => none
  | (ds, rest) =>
    match rest with
    | [] => some ((digitsVal ds : Int) : Rat)
    | '.' :: rest2 =>
      let p := takeDigits rest2
      if p.2 = [] then
        some (((digitsVal ds : Int) : Rat) + ((digitsVal p.1 : Int) : Rat) / ((10 : Rat) ^ p.1.length))
      else none
    | _ => none

/-- String form of `Decimal(...)` parsing (see `parseUnsignedDec`). -/
def parseDecStr (s : String) : Option Rat :=
  match s.data with
  | '-' :: rest => (parseUnsignedDec rest).map Neg.neg
  | l => parseUnsignedDec l

/-- `Decimal(content)`: `none` models a raised `InvalidOperation`. -/
def decimalOf : PyVal → Option Rat
  | .vDec q => some q
  | .vInt n => some (n : Rat)
  | .vStr s => parseDecStr s
  | _ => none

/-- `int(content)`: ints and bools convert; strings must be (optionally
signed) digit runs — `int('Unknown')` raises `ValueError` (`none`). -/
def intOf : PyVal → Option Int
  | .vInt n => some n
  | .vBool b => some (if b then 1 else 0)
  | .vDec q => some (q.num.tdiv (q.den : Int))    -- int() truncates toward zero
  | .vStr s =>
    match s.data with
    | '-' :: rest =>
      match takeDigits rest with
      | ([], _) => none
      | (ds, []) => some (-(digitsVal ds : Int))
      | _ => none
    | l =>
      match takeDigits l with
      | ([], _) => none
      | (ds, []) => some ((digitsVal ds : Int))
      | _ => none
  | _ => none

/-- The attribute names `hasattr` finds on a `NodeStatus` (dataclass fields
plus properties; plain methods are omitted — no sort key ever names one). -/
def attrExists (k : String) : Bool :=
  ["host", "raw", "timing", "tries", "plugins", "broken_plugins", "err_reason",
   "srvtype", "current_block", "block_time", "version", "network", "scanned_at",
   "server_type", "server", "head_block", "ssl", "status", "status_human",
   "total_tries", "total_retries", "avg_tries", "avg_retries", "plugin_counts",
   "time_behind", "res_time", "api_tests"].contains k

/-- Round a rational to two decimal places (the `res_time` property formats
with `'{:.2f}'` and re-parses through `dec_round(..., dp=2)`). -/
def rat2dp (q : Rat) : Rat := ((round (q * 100) : Int) : Rat) / 100

/-- `getattr(node, k)` for the attributes in `attrExists` (RPCScanner.py
lines 47-122): the value each dataclass field / property yields, with
property bodies inlined.  `avg_tries`/`avg_retries` propagate their
`ZeroDivisionError`; `status_human` raises `KeyError` for a status above 3. -/
def contentOf (now : Int) (n : NodeStatus) : String → Except Unit PyVal
  | "host" => .ok (.vStr n.host)
  | "server" => .ok (.vStr n.host)
  | "srvtype" => .ok (.vStr n.srvtype)
  | "server_type" => .ok (.vStr n.srvtype)
  | "ssl" => .ok (.vBool (containsSub "https://" n.host))
  | "status" => .ok (.vInt (n.status : Int))
  | "status_human" =>
    if n.status = 0 then .ok (.vStr "Dead")
    else if n.status = 1 then .ok (.vStr "Unstable")
    else if n.status = 2 then .ok (.vStr "Unreliable")
    else if n.status = 3 then .ok (.vStr "Online")
    else .error ()
  | "current_block" =>
    .ok (match n.current_block with
         | .errorStr => .vStr "error"
         | .unknownStr => .vStr "Unknown"
         | .value b => .vInt b)
  | "head_block" =>
    .ok (match n.current_block with
         | .errorStr => .vStr "error"
         | .unknownStr => .vStr "Unknown"
         | .value b => .vInt b)
  | "block_time" => .ok (match n.block_time with | none => .vNone | some t => .vDt t)
  | "version" => .ok (match n.version with | none => .vNone | some v => .vStr v)
  | "network" => .ok (match n.network with | none => .vNone | some v => .vStr v)
  | "scanned_at" => .ok (match n.scanned_at with | none => .vNone | some t => .vDt t)
  | "raw" => .ok (.vRepr (reprStr n.raw))
  | "timing" => .ok (.vRepr (reprStr n.timing))
  | "tries" => .ok (.vRepr (reprStr n.tries))
  | "plugins" => .ok (.vRepr (reprStr n.plugins))
  | "broken_plugins" => .ok (.vRepr (reprStr n.broken_plugins))
  | "err_reason" => .ok (match n.err_reason with | none => .vNone | some s => .vStr s)
  | "total_tries" => .ok (.vInt (n.total_tries : Int))
  | "total_retries" => .ok (.vInt (n.total_retries : Int))
  | "avg_tries" => (n.avg_tries).map (fun s => .vStr s)
  | "avg_retries" => (n.avg_retries).map (fun s => .vStr s)
  | "plugin_counts" => .ok (.vRepr (reprStr n.plugin_counts))
  | "time_behind" => .ok (match n.time_behind now with | none => .vNone | some t => .vTd t)
  | "res_time" =>
    if n.timing.length = 0 then .ok .vNone
    else .ok (.vDec (rat2dp ((n.timing.foldl (fun acc kv => acc + kv.2) 0) / (n.timing.length : Rat))))
  | "api_tests" =>
    .ok (.vStr (toString n.plugin_counts.1 ++ " / " ++ toString n.plugin_counts.2))
  | _ => .error ()

/-- RPCScanner.py lines 539-549, `table_sort_aliases`: alias → canonical sort
key. -/
def table_sort_aliases (k : String) : String :=
  match k with
  | "online" => "online_status"
  | "working" => "online_status"
  | "dead" => "dead_status"
  | "outofsync" => "outofsync_status"
  | "plugins" => "api_tests"
  | "apitests" => "api_tests"
  | "tests" => "api_tests"
  | "block" => "head_block"
  | "time" => "block_time"
  | "retries" => "avg_retries"
  | "hive" => "hive_network"
  | "steem" => "steem_network"
  | "golos" => "golos_network"
  | "whaleshares" => "whaleshares_network"
  | other => other

/-- RPCScanner.py lines 552-554, `table_types`: per-column sort value types
(`api_tests` maps to the marker string `'len'`, which matches none of the
type branches and falls through to the generic tail). -/
inductive TType where
  | tBool
  | tDatetime
  | tDec
  | tInt
  | tLen
deriving Repr, DecidableEq

/-- Key lookup in `table_types`. -/
def table_types_map (k : String) : Option TType :=
  match k with
  | "ssl" => some .tBool
  | "block_time" => some .tDatetime
  | "res_time" => some .tDec
  | "head_block" => some .tInt
  | "avg_retries" => some .tDec
  | "api_tests" => some .tLen
  | _ => none

/-- RPCScanner.py lines 557-559, `table_default_reverse`. -/
def tableDefaultReverse : List String := ["api_tests", "head_block", "block_time"]

/-- The final fallback tail of `host_sorter` (lines 684-698): on error/empty
content return the sentinel `'!'` (default-reversed column) or `'~'`,
otherwise the stringified content.  The `fallback` parameter keeps its
`USE_ORIG_VAR` sentinel value in every call made by `prepare_table`, so the
`fallback is not USE_ORIG_VAR` early-return never fires and is not
modelled. -/
def sorterGenericTail (content : PyVal) (strcont : String) (has_err def_reverse : Bool) :
    Except Unit PyVal :=
  if has_err || pyEmpty content then
    .ok (.vStr (if def_reverse then "!" else "~"))
  else .ok (.vStr strcont)

/-- RPCScanner.py lines 568-698, `host_sorter`, applied to the node already
looked up from `self.node_status`.  `tplLen` is `len(TEST_PLUGINS_LIST)` and
`now` stands for `datetime.utcnow()`.  The `tt is float` branch of the source
is unreachable (no `table_types` entry is `float`) and is omitted. -/
def host_sorter_node (tplLen : Nat) (now : Int) (n : NodeStatus) (key0 : String) :
    Except Unit PyVal :=
  let key := table_sort_aliases key0
  let realKey := key
  if key == "api_tests" || key == "plugins" then
    -- `if empty(node.plugins, True, True): return 0` then the pass ratio
    if n.plugins.isEmpty then .ok (.vInt 0)
    else if tplLen = 0 then .error ()    -- ZeroDivisionError
    else .ok (.vDec ((n.plugins.length : Rat) / (tplLen : Rat)))
  else if containsSub "_status" key then
    let rest : Except Unit PyVal :=
      if key == "online_status" && decide (n.status ≥ 3) then .ok (.vInt 0)
      else if key == "dead_status" && decide (n.status ≤ 0) then .ok (.vInt 0)
      else .ok (.vInt ((n.status : Int) + 1))
    match n.time_behind now with
    | some t =>
      if t ≠ 0 then
        if t > 60 then .ok (if key == "outofsync_status" then .vInt 0 else .vInt 2)
        else rest
      else rest
    | none => rest
  else
    let realKey := if strEndsWith key "_network" then "network" else realKey
    let p := if attrExists realKey then (key, realKey) else ("status", "status")
    let key := p.1
    let realKey := p.2
    match contentOf now n realKey with
    | .error e => .error e
    | .ok content =>
      let strcont := pyStr content
      let has_err := containsSub "error" (strLower strcont) || containsSub "none" (strLower strcont)
      let def_reverse := tableDefaultReverse.contains realKey
      if key == "hive_network" then
        .ok (if containsSub "hive" (strLower strcont) then .vStr "!" else .vStr strcont)
      else if key == "steem_network" then
        .ok (if containsSub "steem" (strLower strcont) then .vStr "!" else .vStr strcont)
      else if key == "whaleshares_network" then
        .ok (if containsSub "whaleshares" (strLower strcont) then .vStr "!" else .vStr strcont)
      else if key == "golos_network" then
        .ok (if containsSub "golos" (strLower strcont) then .vStr "!" else .vStr strcont)
      else
        match table_types_map key with
        | some .tBool =>
          if has_err || pyEmpty content then .ok (.vBool (!def_reverse))
          else .ok (.vBool (is_true content))
        | some .tDatetime =>
          -- fallback: utcnow + 260 weeks + 12 hours, or 1980-01-01 01:01:01 UTC
          let fallback : Int := if def_reverse then 315536461 else now + 157291200
          if has_err || pyEmpty content then .ok (.vDt fallback)
          else
            match content with
            | .vDt t => .ok (.vDt t)
            | _ => .error ()   -- convert_datetime cannot convert
        | some .tDec =>
          if has_err || pyEmpty content then
            .ok (.vDec (if def_reverse then 0 else 999999999))
          else
            match decimalOf content with
            | some q => .ok (.vDec q)
            | none => .error ()
        | some .tInt =>
          if has_err || pyEmpty content then
            .ok (.vInt (if def_reverse then 0 else 999999999))
          else
            match intOf content with
            | some i => .ok (.vInt i)
            | none => .error ()   -- e.g. int('Unknown')
        | some .tLen => sorterGenericTail content strcont has_err def_reverse
        | none => sorterGenericTail content strcont has_err def_reverse

/-- `self.get_node(host)`: dict lookup in `self.node_status` (hosts are the
dict keys, so they are unique; the scanner state is its ordered entry
list). -/
def get_node (nodes : List NodeStatus) (host : String) : Option NodeStatus :=
  nodes.find? (fun n => n.host == host)

/-- `host_sorter(host, key)` as invoked by `prepare_table`; a missing host
would raise `KeyError` (`.error ()`). -/
def host_sorter (tplLen : Nat) (now : Int) (nodes : List NodeStatus)
    (host : String) (key : String) : Except Unit PyVal :=
  match get_node nodes host with
  | none => .error ()
  | some n => host_sorter_node tplLen now n key

/-- Comparison of two sort-key values, as Python's `sorted` compares them.
Mixed numeric types compare numerically; any other mixed pair (or a key
function that raised) aborts `sorted` with `TypeError` in Python and is
modelled as incomparable here. -/
def pyValLT : PyVal → PyVal → Bool
  | .vStr a, .vStr b => decide (a < b)
  | .vInt a, .vInt b => decide (a < b)
  | .vBool a, .vBool b => !a && b
  | .vDt a, .vDt b => decide (a < b)
  | .vTd a, .vTd b => decide (a < b)
  | .vDec a, .vDec b => decide (a < b)
  | .vInt a, .vDec b => decide ((a : Rat) < b)
  | .vDec a, .vInt b => decide (a < (b : Rat))
  | _, _ => false

/-- Lift `pyValLT` over the fallible key function. -/
def exceptKeyLT (a b : Except Unit PyVal) : Bool :=
  match a, b with
  | .ok x, .ok y => pyValLT x y
  | _, _ => false

/-- Insert `x` after every element strictly smaller than it (stable). -/
def insertStable (lt : α → α → Bool) (x : α) : List α → List α
  | [] => [x]
  | y :: ys => if lt y x then y :: insertStable lt x ys else x :: y :: ys

/-- Stable insertion sort; models the stability contract of Python's
`sorted`. -/
def sortStable (lt : α → α → Bool) : List α → List α
  | [] => []
  | x :: xs => insertStable lt x (sortStable lt xs)

/-- `sorted(l, key=key, reverse=reverse)`: stable ascending by key, or stable
descending when `reverse` (equal-key elements keep their original order in
both directions, as in CPython). -/
def pySorted (key : α → Except Unit PyVal) (reverse : Bool) (l : List α) : List α :=
  if reverse then sortStable (fun a b => exceptKeyLT (key b) (key a)) l
  else sortStable (fun a b => exceptKeyLT (key a) (key b)) l

/-- RPCScanner.py lines 700-711, `prepare_table(sort_by, reverse)`.
`rowOf` stands for `_node_table_row`, which renders the display row for a
node and pairs it with `node.host`; the row payload is pure presentation
(colour codes, padding) and never influences the ordering, so it is kept as
a parameter.  The unspecified `reverse` defaults by membership of the
resolved key in `table_default_reverse`; `sort_by` empty or `'default'`
skips sorting (possibly reversing the raw table). -/
def prepare_table {ρ : Type} (tplLen : Nat) (now : Int) (nodes : List NodeStatus)
    (rowOf : NodeStatus → ρ) (sort_by : String) (reverse : Option Bool) :
    List (String × ρ) :=
  let ntable := nodes.map (fun nd => (nd.host, rowOf nd))
  let real_key := table_sort_aliases sort_by
  let rev :=
    match reverse with
    | some b => b
    | none => tableDefaultReverse.contains real_key
  if sort_by == "" || sort_by == "default" then
    if rev then ntable.reverse else ntable
  else
    pySorted (fun el => host_sorter tplLen now nodes el.1 sort_by) rev ntable

/-- The first component (the numeric score) of `score_core`, as a standalone
function for the arithmetic lemmas below. -/
def score_val (plugins : Bool) (status retries plugTried plugTotal : Nat)
    (tb : Option Int) : Int :=
  if status ≤ 0 then 0
  else
    let score : Int :=
      if status = 1 then MAX_SCORE - 10
      else if status = 2 then MAX_SCORE - 5
      else MAX_SCORE
    let score := if (retries : Int) > 0 then score - (retries : Int) * 2 else score
    let score :=
      if plugins ∧ plugTried < plugTotal then
        score - ((plugTotal : Int) - (plugTried : Int)) * 4
      else score
    let score := timeAdjust tb score
    if score < 0 then 0 else score

/-- A healthy node that needed one extra attempt for the props call and whose
block time is 24 hours and 1 second behind the scan time: pre-penalty score
`50 - 2*2 = 46 > 40`, staleness penalty 40, final score 6. -/
def nodeC1 : NodeStatus :=
  { host := "https://node.example", raw := ["ident", "init_props", "props"],
    timing := [], tries := [("props", 2)], block_time := some 0,
    scanned_at := some 86401 }

/-- A fully-alive node whose props call succeeded on its second attempt
(`tries = {'props': 2}`): one actual retry happened, but `total_retries`
reports 2. -/
def nodeC2 : NodeStatus :=
  { host := "https://node2.example", raw := ["ident", "init_props", "props"],
    timing := [], tries := [("props", 2)] }

/-- A node that passed the first two scan stages and then died at the
block-info stage with the websockets-only error: `err_reason = 'WS Only'`
but two stages of raw data were already accumulated. -/
def nodeC5 : NodeStatus :=
  { host := "https://node5.example", raw := ["init_props", "config"],
    timing := [], tries := [("config", 1)], err_reason := some "WS Only" }

/-- A node that died at the identify stage with the websockets-only error:
no stage data accumulated at all. -/
def nodeC5w : NodeStatus :=
  { host := "https://node5w.example", raw := [], timing := [], tries := [],
    err_reason := some "WS Only" }

/-- Baseline node for the monotonicity witness: no retries, one passing
plugin, no failures. -/
def nodeC6a : NodeStatus :=
  { host := "https://node6.example", raw := ["ident", "init_props", "props"],
    timing := [], tries := [("props", 1)], plugins := ["condenser_api.get_blog"] }

/-- Same node with the props call needing three attempts. -/
def nodeC6b : NodeStatus :=
  { host := "https://node6.example", raw := ["ident", "init_props", "props"],
    timing := [], tries := [("props", 3)], plugins := ["condenser_api.get_blog"] }

/-- Same node as `nodeC6a` with two additional failed method tests. -/
def nodeC6c : NodeStatus :=
  { host := "https://node6.example", raw := ["ident", "init_props", "props"],
    timing := [], tries := [("props", 1)], plugins := ["condenser_api.get_blog"],
    broken_plugins := ["condenser_api.get_content", "condenser_api.get_followers"] }

/-- An attempt schedule that fails once and then succeeds. -/
def attC3 : Nat → AttemptResult Nat := fun i => if i = 0 then .failure else .success 7

/-- An attempt schedule that always fails (retryably). -/
def attC3f : Nat → AttemptResult Nat := fun _ => .failure

/-- An attempt schedule whose first attempt hits HTTP 426. -/
def attC4 : Nat → AttemptResult Nat := fun _ => .upgradeRequired

/-- An identify-attempt schedule whose first attempt hits HTTP 426. -/
def attC4i : Nat → AttemptResult (Option String) := fun _ => .upgradeRequired

/-- The response body `{"jussi_num": 5}` (as the dict `res.json()` yields). -/
def bodyJussi : JsonFields := .cons "jussi_num" (.num 5) .nil

/-- The response body `{"error": {"message": "End Of File:stringstream"}}`. -/
def bodyEof : JsonFields :=
  .cons "error" (.obj (.cons "message" (.str "End Of File:stringstream") .nil)) .nil

/-- A response body that contains the end-of-file marker only inside an
unrelated string field — none of the claim's three positive cases apply. -/
def bodyC8ex : JsonFields := .cons "note" (.str "see end of file:stringstream") .nil

/-- A node whose attempt-count mapping is empty (e.g. it died at identify
before any call completed). -/
def nodeC10 : NodeStatus := { host := "https://node10.example", raw := [], timing := [], tries := [] }


lemma score_core_fst (plugins : Bool) (ms : Int) (st r pt tot : Nat) (tb : Option Int) :
    (score_core plugins ms st r pt tot tb).1 = score_val plugins st r pt tot tb := by
  unfold score_core score_val
  split <;> rfl

lemma clamp0_mono (x y : Int) (h : x ≤ y) :
    (if x < 0 then 0 else x) ≤ (if y < 0 then 0 else y) := by
  split_ifs <;> omega

lemma timePenaltySub_diff (t a b : Int) :
    timePenaltySub t a - timePenaltySub t b = a - b := by
  unfold timePenaltySub
  split_ifs <;> omega

lemma timeAdjust_mono (tb : Option Int) (a b : Int) (hle : b ≤ a) (hd : (2 : Int) ∣ a - b) :
    timeAdjust tb b ≤ timeAdjust tb a := by
  cases tb with
  | none => exact hle
  | some t =>
    have hdiff := timePenaltySub_diff t a b
    simp only [timeAdjust]
    by_cases ht0 : t = 0
    · rw [if_pos ht0, if_pos ht0]
      exact hle
    · rw [if_neg ht0, if_neg ht0]
      simp only [stalenessRescue]
      generalize timePenaltySub t a = pa at hdiff ⊢
      generalize timePenaltySub t b = pb at hdiff ⊢
      split_ifs <;> omega

lemma timePenaltySub_le (t x : Int) : timePenaltySub t x ≤ x := by
  unfold timePenaltySub
  split_ifs <;> omega

lemma timeAdjust_le (tb : Option Int) (x : Int) : timeAdjust tb x ≤ max x 10 := by
  cases tb with
  | none => simp only [timeAdjust]; omega
  | some t =>
    simp only [timeAdjust]
    by_cases ht0 : t = 0
    · rw [if_pos ht0]
      omega
    · rw [if_neg ht0]
      simp only [stalenessRescue]
      have hp := timePenaltySub_le t x
      generalize timePenaltySub t x = pa at hp ⊢
      split_ifs <;> omega

lemma score_val_mono (plugins : Bool) (st : Nat) (tb : Option Int)
    (r1 r2 pt tot1 tot2 : Nat) (hr : r1 ≤ r2) (htot : tot1 ≤ tot2) :
    score_val plugins st r2 pt tot2 tb ≤ score_val plugins st r1 pt tot1 tb := by
  by_cases h0 : st ≤ 0
  · simp [score_val, h0]
  · simp only [score_val, if_neg h0]
    refine clamp0_mono _ _ (timeAdjust_mono tb _ _ ?_ ?_) <;>
    · by_cases hc1 : plugins = true ∧ pt < tot1
      · have hc2 : plugins = true ∧ pt < tot2 := ⟨hc1.1, lt_of_lt_of_le hc1.2 htot⟩
        have h1 := hc1.2
        rw [if_pos hc1, if_pos hc2]
        split_ifs <;> omega
      · rw [if_neg hc1]
        by_cases hc2 : plugins = true ∧ pt < tot2
        · have h2 := hc2.2
          rw [if_pos hc2]
          split_ifs <;> omega
        · rw [if_neg hc2]
          split_ifs <;> omega

lemma score_val_eq_clamp (plugins : Bool) (n : NodeStatus) (tb : Option Int)
    (h1 : ¬ n.status ≤ 0) :
    score_val plugins n.status n.total_retries n.plugin_counts.1 n.plugin_counts.2 tb
      = (if timeAdjust tb (pre_penalty_score plugins n) < 0 then 0
         else timeAdjust tb (pre_penalty_score plugins n)) := by
  simp only [score_val, pre_penalty_score, if_neg h1]

lemma pre_penalty_le (plugins : Bool) (n : NodeStatus) :
    pre_penalty_score plugins n ≤ 50 := by
  simp only [pre_penalty_score, MAX_SCORE]
  by_cases hc : plugins = true ∧ n.plugin_counts.1 < n.plugin_counts.2
  · have := hc.2
    rw [if_pos hc]
    split_ifs <;> omega
  · rw [if_neg hc]
    split_ifs <;> omega

lemma pre_penalty_dead (plugins : Bool) (n : NodeStatus) (h0 : n.status ≤ 0) :
    pre_penalty_score plugins n ≤ 0 := by
  simp only [pre_penalty_score, if_pos h0]
  by_cases hc : plugins = true ∧ n.plugin_counts.1 < n.plugin_counts.2
  · have := hc.2
    rw [if_pos hc]
    split_ifs <;> omega
  · rw [if_neg hc]
    split_ifs <;> omega

/-- Claim C1 (counterexample): `nodeC1` has pre-penalty score 46, above 80%
of MAX_SCORE, and is 86401 seconds (> 24h) behind, yet `score_node` returns
score 6, below 20% of MAX_SCORE (= 10): the rescue only fires below 10% of
MAX_SCORE, so post-penalty scores between 10% and 20% are never lifted. -/
theorem c1_rescue_counterexample :
    pre_penalty_score true nodeC1 > 40
    ∧ nodeC1.time_behind 0 = some 86401
    ∧ (score_node true 0 40 nodeC1).1 = 6
    ∧ ¬ (score_node true 0 40 nodeC1).1 ≥ 10 :=
  ⟨by decide, by decide, by decide, by decide⟩

/-- Claim C1 (amended): for every NodeRecord whose pre-penalty score exceeds
80% of MAX_SCORE (i.e. > 40) and whose block time is more than 24 hours
behind the scan time, `score_node` returns a final score of at least 5% of
MAX_SCORE (`int(MAX_SCORE*0.05) = 2`) — in particular strictly positive —
for any minimum-score threshold. -/
theorem c1_rescue_floor (plugins : Bool) (now min_score : Int) (n : NodeStatus) (t : Int)
    (hpre : pre_penalty_score plugins n > 40)
    (htb : n.time_behind now = some t) (ht : t > 86400) :
    (score_node plugins now min_score n).1 ≥ 2 := by
  have h1 : ¬ n.status ≤ 0 := fun h0 => absurd (pre_penalty_dead plugins n h0) (by omega)
  unfold score_node
  rw [score_core_fst, htb, score_val_eq_clamp plugins n (some t) h1]
  have hfloor : 2 ≤ timeAdjust (some t) (pre_penalty_score plugins n) := by
    generalize pre_penalty_score plugins n = pre at hpre
    simp only [timeAdjust, timePenaltySub, stalenessRescue, if_neg (show ¬t = 0 by omega)]
    split_ifs <;> omega
  split_ifs <;> omega

theorem c1_rescue_floor_witness : (score_node true 0 40 nodeC1).1 ≥ 2 :=
  c1_rescue_floor true 0 40 nodeC1 86401 (by decide) (by decide) (by decide)

/-- Claim C2: evaluating the code at `tries = {'props': 2}` (one call that
needed a single retry): `total_retries` reports 2 — the full attempt count,
not the 1 extra attempt beyond the first — and `score_node` therefore deducts
`2 × 2 = 4` points, scoring 46 instead of the 48 that a
retries-beyond-the-first definition would give. -/
theorem c2_total_retries_eval :
    nodeC2.total_retries = 2 ∧ (score_node true 0 40 nodeC2).1 = 46 :=
  ⟨by decide, by decide⟩

/-- Claim C5 (counterexample): `nodeC5` has `err_reason = 'WS Only'` but
completed two scan stages before dying; `score_node` never reads
`err_reason`, so it scores 45 with label GOOD, not 0/DEAD. -/
theorem c5_ws_only_counterexample :
    nodeC5.err_reason = some "WS Only"
    ∧ score_node true 0 40 nodeC5 = (45, 0, "GOOD")
    ∧ (score_node true 0 40 nodeC5).1 ≠ 0
    ∧ (score_node true 0 40 nodeC5).2.2 ≠ "DEAD" :=
  ⟨by decide, by decide, by decide, by decide⟩

/-- Claim C5 (amended): for every NodeRecord with `deadReason` set to the
transport-unsupported marker 'WS Only' that died before completing any scan
stage (`raw` empty, i.e. `status == 0`), `score_node` returns score 0, return
code 1 and the label DEAD, for any minimum-score threshold.  (`score_node`
decides deadness solely from the stage count; `err_reason` is never read.) -/
theorem c5_ws_only_dead (plugins : Bool) (now min_score : Int) (n : NodeStatus)
    (_hws : n.err_reason = some "WS Only") (h0 : n.raw = []) :
    score_node plugins now min_score n = (0, 1, "DEAD") := by
  have hst : n.status = 0 := by simp [NodeStatus.status, h0]
  unfold score_node score_core
  rw [hst]
  rfl

theorem c5_ws_only_dead_witness : score_node true 0 40 nodeC5w = (0, 1, "DEAD") :=
  c5_ws_only_dead true 0 40 nodeC5w rfl rfl

/-- Claim C7: for every NodeRecord and every minimum-score threshold, the
score returned by `score_node` is an integer in [0, MAX_SCORE] — the upper
bound holds even though the code only clamps the lower bound explicitly. -/
theorem c7_score_bounds (plugins : Bool) (now min_score : Int) (n : NodeStatus) :
    0 ≤ (score_node plugins now min_score n).1
    ∧ (score_node plugins now min_score n).1 ≤ MAX_SCORE := by
  unfold score_node
  rw [score_core_fst]
  by_cases h0 : n.status ≤ 0
  · simp [score_val, h0, MAX_SCORE]
  · rw [score_val_eq_clamp plugins n _ h0]
    have hle := pre_penalty_le plugins n
    have hta := timeAdjust_le (n.time_behind now) (pre_penalty_score plugins n)
    simp only [MAX_SCORE]
    constructor
    · split_ifs <;> omega
    · split_ifs <;> omega

/-- Claim C6: holding all other NodeRecord fields fixed, the score returned
by `score_node` is monotonically non-increasing in `totalRetries` (first
conjunct) and monotonically non-increasing in the number of failed method
tests, i.e. `totalMethodsTested - passedMethods = len(broken_plugins)`
(second conjunct). -/
theorem c6_score_monotone (plugins : Bool) (now min_score : Int) (n1 n2 : NodeStatus)
    (hraw : n1.raw = n2.raw) (hbt : n1.block_time = n2.block_time)
    (hsc : n1.scanned_at = n2.scanned_at) :
    ((n1.plugins = n2.plugins ∧ n1.broken_plugins = n2.broken_plugins
        ∧ n1.total_retries ≤ n2.total_retries) →
      (score_node plugins now min_score n2).1 ≤ (score_node plugins now min_score n1).1)
    ∧ ((n1.total_retries = n2.total_retries ∧ n1.plugins = n2.plugins
        ∧ n1.broken_plugins.length ≤ n2.broken_plugins.length) →
      (score_node plugins now min_score n2).1 ≤ (score_node plugins now min_score n1).1) := by
  have hst : n1.status = n2.status := by simp [NodeStatus.status, hraw]
  have htb : n1.time_behind now = n2.time_behind now := by
    simp [NodeStatus.time_behind, hbt, hsc]
  constructor
  · rintro ⟨hp, hb, hr⟩
    have hpc : n1.plugin_counts = n2.plugin_counts := by
      simp [NodeStatus.plugin_counts, hp, hb]
    unfold score_node
    rw [score_core_fst, score_core_fst, ← hst, ← htb, ← hpc]
    exact score_val_mono plugins n1.status (n1.time_behind now) _ _ _ _ _ hr (le_refl _)
  · rintro ⟨hr, hp, hb⟩
    have hpt : n1.plugin_counts.1 = n2.plugin_counts.1 := by
      simp [NodeStatus.plugin_counts, hp]
    have htot : n1.plugin_counts.2 ≤ n2.plugin_counts.2 := by
      simp only [NodeStatus.plugin_counts, hp]
      omega
    unfold score_node
    rw [score_core_fst, score_core_fst, ← hst, ← htb, ← hpt, ← hr]
    exact score_val_mono plugins n1.status (n1.time_behind now) _ _ _ _ _ (le_refl _) htot

theorem c6_score_monotone_witness :
    (score_node true 0 40 nodeC6b).1 ≤ (score_node true 0 40 nodeC6a).1
    ∧ (score_node true 0 40 nodeC6c).1 ≤ (score_node true 0 40 nodeC6a).1 :=
  ⟨(c6_score_monotone true 0 40 nodeC6a nodeC6b rfl rfl rfl).1 ⟨rfl, rfl, by decide⟩,
   (c6_score_monotone true 0 40 nodeC6a nodeC6c rfl rfl rfl).2 ⟨by decide, rfl, by decide⟩⟩

lemma tryNodeGo_unfold {α : Type} (maxTries : Nat) (att : Nat → AttemptResult α) (t : Nat) :
    tryNodeGo maxTries att t =
      if maxTries ≤ t then .error (.unresponsive t)
      else
        match att t with
        | .success v => .ok (v, t + 1)
        | .upgradeRequired => .error (.wsOnly (t + 1))
        | .failure => tryNodeGo maxTries att (t + 1) := by
  rw [tryNodeGo]

lemma identJussiGo_unfold (maxTries : Nat) (att : Nat → AttemptResult (Option String)) (t : Nat) :
    identJussiGo maxTries att t =
      if maxTries ≤ t then .error (.unresponsive t)
      else
        match att t with
        | .success v => .ok (v, t + 1)
        | .upgradeRequired => .error (.wsOnly (t + 1))
        | .failure => identJussiGo maxTries att (t + 1) := by
  rw [identJussiGo]

lemma tryNodeGo_skip {α : Type} (maxTries k : Nat) (att : Nat → AttemptResult α)
    (hk : k < maxTries) (hf : ∀ i, i < k → att i = .failure) :
    ∀ m t, t ≤ k → k - t = m → tryNodeGo maxTries att t = tryNodeGo maxTries att k := by
  intro m
  induction m with
  | zero =>
    intro t ht hm
    have : t = k := by omega
    rw [this]
  | succ m ih =>
    intro t ht hm
    have htk : t < k := by omega
    rw [tryNodeGo_unfold, if_neg (by omega), hf t htk]
    exact ih (t + 1) (by omega) (by omega)

lemma tryNodeGo_all_fail {α : Type} (maxTries : Nat) (att : Nat → AttemptResult α)
    (hf : ∀ i, att i = .failure) :
    ∀ m t, t ≤ maxTries → maxTries - t = m →
      tryNodeGo maxTries att t = .error (.unresponsive maxTries) := by
  intro m
  induction m with
  | zero =>
    intro t ht hm
    have : t = maxTries := by omega
    rw [tryNodeGo_unfold, if_pos (by omega), this]
  | succ m ih =>
    intro t ht hm
    rw [tryNodeGo_unfold, if_neg (by omega), hf t]
    exact ih (t + 1) (by omega) (by omega)

/-- Claim C3: if the underlying single-attempt call fails (retryably) on the
first `k < maxTries` attempts and then succeeds, the retry wrapper
`_try_node` returns success with the attempts field equal to `k + 1`; if the
call fails on every attempt, it raises the terminal `ServerDead` after
exactly `maxTries` attempts and never more (the error carries the attempt
count at which the loop stopped). -/
theorem c3_retry_attempts {α : Type} (maxTries k : Nat) (att : Nat → AttemptResult α) (v : α) :
    (k < maxTries → (∀ i, i < k → att i = .failure) → att k = .success v →
       tryNode maxTries att = .ok (v, k + 1))
    ∧ ((∀ i, att i = .failure) →
       tryNode maxTries att = .error (.unresponsive maxTries)) := by
  constructor
  · intro hk hf hs
    unfold tryNode
    rw [tryNodeGo_skip maxTries k att hk hf k 0 (by omega) (by omega),
      tryNodeGo_unfold, if_neg (by omega), hs]
  · intro hf
    unfold tryNode
    exact tryNodeGo_all_fail maxTries att hf maxTries 0 (by omega) (by omega)

theorem c3_retry_attempts_witness :
    tryNode 3 attC3 = .ok (7, 2) ∧ tryNode 3 attC3f = .error (.unresponsive 3) :=
  ⟨(c3_retry_attempts 3 1 attC3 7).1 (by omega)
      (fun i hi => by
        have : i = 0 := by omega
        rw [this]
        rfl)
      rfl,
   (c3_retry_attempts 3 0 attC3f 0).2 (fun i => rfl)⟩

/-- Claim C4: whenever the first attempt fails with the upgrade-required
(HTTP 426) transport error, both the JSON-RPC retry wrapper `_try_node` and
the identify probe `_ident_jussi` immediately raise the terminal
websockets-only `ServerDead` without any further attempt: the attempts
counter stays at 1. -/
theorem c4_ws_short_circuit {α : Type} (maxTries : Nat) (att : Nat → AttemptResult α)
    (iatt : Nat → AttemptResult (Option String)) (hm : 0 < maxTries)
    (h1 : att 0 = .upgradeRequired) (h2 : iatt 0 = .upgradeRequired) :
    tryNode maxTries att = .error (.wsOnly 1)
    ∧ identJussi maxTries iatt = .error (.wsOnly 1) := by
  constructor
  · unfold tryNode
    rw [tryNodeGo_unfold, if_neg (by omega), h1]
  · unfold identJussi
    rw [identJussiGo_unfold, if_neg (by omega), h2]

theorem c4_ws_short_circuit_witness :
    tryNode 3 attC4 = .error (.wsOnly 1) ∧ identJussi 3 attC4i = .error (.wsOnly 1) :=
  c4_ws_short_circuit 3 attC4 attC4i (by omega) rfl rfl

/-- Claim C8 (counterexample): the body `{"note": "see end of
file:stringstream"}` has no `jussi_num` field, is not the specific
error-message body, and contains no "could not call api" text, so the claim
says it classifies as Unknown (None); the code classifies it as 'appbase',
because the serialised body contains the end-of-file marker as a substring. -/
theorem c8_ident_counterexample :
    identResponse (.inr bodyC8ex) = .ok (some "appbase")
    ∧ identResponse (.inr bodyC8ex) ≠ .ok none := by
  constructor
  · rfl
  · intro h
    rw [show identResponse (.inr bodyC8ex) = .ok (some "appbase") from rfl] at h
    simp at h

/-- Claim C8 (amended): the identify classifier maps a body with a
`jussi_num` field (e.g. `{"jussi_num": 5}`) to 'jussi'; the body
`{"error": {"message": "End Of File:stringstream"}}` to 'appbase'; and for
any body text that does not decode as JSON, it returns 'appbase' when the
lower-cased text contains 'end of file:stringstream', otherwise 'legacy'
when it contains 'could not call api', otherwise Unknown (None) — the
end-of-file substring probe takes precedence over the legacy probe, and a
decodable body is classified by its fields first. -/
theorem c8_ident_classify :
    identResponse (.inr bodyJussi) = .ok (some "jussi")
    ∧ identResponse (.inr bodyEof) = .ok (some "appbase")
    ∧ (∀ s : String, jsonLoads s = none →
        identResponse (.inl s) =
          (if containsSub "end of file:stringstream" (strLower s) then .ok (some "appbase")
           else if containsSub "could not call api" (strLower s) then .ok (some "legacy")
           else .ok none)) := by
  refine ⟨rfl, rfl, ?_⟩
  intro s hs
  simp only [identResponse, hs]
  rfl

theorem c8_ident_classify_witness :
    identResponse (.inl "could not call api") = .ok (some "legacy") := by
  have h := c8_ident_classify.2.2 "could not call api" rfl
  rw [h]
  rfl

/-- Claim C9: for every scanned node set, every row renderer and every value
of the optional reverse flag, preparing the sorted node table with the alias
sort key 'block' yields exactly the same row ordering as preparing it with
the canonical sort key 'head_block'. -/
theorem c9_block_alias_sort {ρ : Type} (tplLen : Nat) (now : Int)
    (nodes : List NodeStatus) (rowOf : NodeStatus → ρ) (reverse : Option Bool) :
    prepare_table tplLen now nodes rowOf "block" reverse
      = prepare_table tplLen now nodes rowOf "head_block" reverse := rfl

/-- Claim C10: the report accessors `avg_tries` and `avg_retries` divide by
the number of recorded attempt entries with no guard: on a node whose
attempt-count mapping is empty they raise `ZeroDivisionError` (modelled
`.error ()`) instead of returning a value, and they return a formatted
2-decimal string exactly when at least one attempt count is recorded. -/
theorem c10_avg_divzero (n : NodeStatus) :
    (n.avg_tries = .error () ↔ n.tries = [])
    ∧ (n.avg_retries = .error () ↔ n.tries = [])
    ∧ ((∃ s, n.avg_tries = .ok s) ↔ n.tries ≠ [])
    ∧ ((∃ s, n.avg_retries = .ok s) ↔ n.tries ≠ []) := by
  by_cases h : n.tries = []
  · simp [NodeStatus.avg_tries, NodeStatus.avg_retries, h]
  · have h0 : ¬ n.tries.length = 0 := by simpa [List.length_eq_zero] using h
    simp [NodeStatus.avg_tries, NodeStatus.avg_retries, h0, h]

theorem c10_avg_divzero_witness : nodeC10.avg_tries = .error () :=
  (c10_avg_divzero nodeC10).1.mpr rfl
